import Mathlib

/-!
Shallow embedding of `src/tsig.go` (package dns): TSIG generation and
validation (RFC 2845 / RFC 4635).

Go strings in this file are byte strings; they are modelled as `List Nat`
(each entry a byte value).  Machine integers (`uint16`, `uint32`, `uint64`)
are modelled as `Nat`, with reduction `% 2 ^ w` applied at the points where
the code serializes them or narrows them (`uint16(len(...))`).

The repository ships only `tsig.go`; the message type `Msg`, the generic
serializers `Msg.Pack` / `packStruct`, the base64 helpers
`unpackBase64` / `packBase64`, and the HMAC engine live outside `src/` and
are modelled from the spec where so marked.
-/

set_option linter.unusedVariables false
set_option maxRecDepth 8000

namespace TSIG

/-- Modelled from the spec: the record-header container (owner name, class,
ttl, type) used by all record types.  `Name` is a domain name, kept as its
byte string. -/
structure RR_Header where
  Name : List Nat
  Rrtype : Nat
  Class : Nat
  Ttl : Nat
  deriving DecidableEq, Repr

/-- Modelled from the spec: the record-type code identifying a Signature
(TSIG) record; its concrete value is irrelevant to the claims. -/
def TypeTSIG : Nat := 250

/-- `RR_TSIG` from `src/tsig.go` lines 21-32.  `MAC` and `OtherData` are Go
strings holding raw bytes ("fixed-size"), modelled as byte lists. -/
structure RR_TSIG where
  Hdr : RR_Header
  Algorithm : List Nat
  TimeSigned : Nat
  Fudge : Nat
  MACSize : Nat
  MAC : List Nat
  OrigId : Nat
  Error : Nat
  OtherLen : Nat
  OtherData : List Nat
  deriving DecidableEq, Repr

/-- Modelled from the spec: a resource record of the message's
trailing-record list is either a Signature (TSIG) record or some other
record (header plus opaque rdata); the Go side is the `RR` interface. -/
inductive RR where
  | tsig (rr : RR_TSIG)
  | other (hdr : RR_Header) (rdata : List Nat)
  deriving DecidableEq, Repr

/-- `Header()` of a record: the TSIG case is `src/tsig.go` lines 34-36, the
other case is modelled from the spec (every record exposes its header). -/
def RR.header : RR → RR_Header
  | .tsig rr => rr.Hdr
  | .other hdr _ => hdr

/-- Modelled from the spec: the message header; only its id matters to this
core. -/
structure MsgHdr where
  Id : Nat
  deriving DecidableEq, Repr

/-- Modelled from the spec: the message is an external entity exposing a
mutable header id and an ordered trailing-record list (`Extra`); the rest
of its content is opaque to this core and kept as pre-serialized bytes. -/
structure Msg where
  MsgHdr : MsgHdr
  body : List Nat
  Extra : List RR
  deriving DecidableEq, Repr

/-- Big-endian serialization of `v` into `w` bytes (value reduced
`% 2 ^ (8 * w)`), the fixed-width integer encoding of the record layer. -/
def packUint (w v : Nat) : List Nat :=
  (List.range w).map (fun i => v / 256 ^ (w - 1 - i) % 256)

/-- Modelled from the spec: domain-name wire encoding with compression off;
the name's bytes followed by a terminating zero octet. -/
def packName (n : List Nat) : List Nat :=
  n ++ [0]

/-- Modelled from the spec: wire encoding of one trailing record inside a
message (header fields, then length-prefixed rdata); a TSIG record fails to
serialize when a declared fixed-size length does not match the actual
data. -/
def RR.pack : RR → Option (List Nat)
  | .other hdr rdata =>
      some (packName hdr.Name ++ packUint 2 hdr.Rrtype ++ packUint 2 hdr.Class
        ++ packUint 4 hdr.Ttl ++ packUint 2 rdata.length ++ rdata)
  | .tsig rr =>
      if rr.MACSize = rr.MAC.length ∧ rr.OtherLen = rr.OtherData.length then
        some (packName rr.Hdr.Name ++ packUint 2 rr.Hdr.Rrtype
          ++ packUint 2 rr.Hdr.Class ++ packUint 4 rr.Hdr.Ttl
          ++ packName rr.Algorithm ++ packUint 6 rr.TimeSigned
          ++ packUint 2 rr.Fudge ++ packUint 2 rr.MACSize ++ rr.MAC
          ++ packUint 2 rr.OrigId ++ packUint 2 rr.Error
          ++ packUint 2 rr.OtherLen ++ rr.OtherData)
      else none

/-- Modelled from the spec: `Pack(message) -> bytes | error`, the external
message serializer: header id, trailing-record count, the message's
remaining content, then each trailing record in order; fails when a record
fails to serialize. -/
def Msg.Pack (m : Msg) : Option (List Nat) :=
  match m.Extra.mapM RR.pack with
  | none => none
  | some rs => some (packUint 2 m.MsgHdr.Id ++ packUint 2 m.Extra.length
      ++ m.body ++ rs.flatten)

/-- `tsigWireFmt` from `src/tsig.go` lines 52-65: the TSIG variables put in
wire format so the MAC can be calculated; `MACSize`, `MAC` and `OrigId` are
excluded (they are not fields of this struct). -/
structure tsigWireFmt where
  Name : List Nat
  Class : Nat
  Ttl : Nat
  Algorithm : List Nat
  TimeSigned : Nat
  Fudge : Nat
  Error : Nat
  OtherLen : Nat
  OtherData : List Nat
  deriving DecidableEq, Repr

/-- Modelled from the spec: `packStruct` of the record layer applied to the
`tsigWireFmt` struct — per-field encoding tags: domain names with
compression off, big-endian integers of width 16/32/48 bits, raw fixed-size
byte strings; fails on a fixed-width mismatch between `OtherLen` and the
actual length of `OtherData`. -/
def packStructTsig (t : tsigWireFmt) : Option (List Nat) :=
  if t.OtherLen = t.OtherData.length then
    some (packName t.Name ++ packUint 2 t.Class ++ packUint 4 t.Ttl
      ++ packName t.Algorithm ++ packUint 6 t.TimeSigned
      ++ packUint 2 t.Fudge ++ packUint 2 t.Error
      ++ packUint 2 t.OtherLen ++ t.OtherData)
  else none

/-- The projection `src/tsig.go` lines 124-133 builds: the `tsigWireFmt`
filled from the record's header fields and rdata. -/
def tsigProj (rr : RR_TSIG) : tsigWireFmt :=
  { Name := rr.Hdr.Name
    Class := rr.Hdr.Class
    Ttl := rr.Hdr.Ttl
    Algorithm := rr.Algorithm
    TimeSigned := rr.TimeSigned
    Fudge := rr.Fudge
    Error := rr.Error
    OtherLen := rr.OtherLen
    OtherData := rr.OtherData }

/-- `tsigToBuf` from `src/tsig.go` lines 121-147: pack the `tsigWireFmt`
projection into the fixed 4096-byte scratch buffer (failing when it does
not fit), pack the message, and return the message bytes followed by the
projection bytes. -/
def tsigToBuf (rr : RR_TSIG) (msg : Msg) : Option (List Nat) :=
  match packStructTsig (tsigProj rr) with
  | none => none
  | some tbuf =>
    if tbuf.length ≤ 4096 then
      match msg.Pack with
      | none => none
      | some msgbuf => some (msgbuf ++ tbuf)
    else none

/-- Decimal value of one base64 alphabet byte, or `none` when the byte is
not in the alphabet. -/
def b64val (c : Nat) : Option Nat :=
  if 65 ≤ c ∧ c ≤ 90 then some (c - 65)
  else if 97 ≤ c ∧ c ≤ 122 then some (c - 97 + 26)
  else if 48 ≤ c ∧ c ≤ 57 then some (c - 48 + 52)
  else if c = 43 then some 62
  else if c = 47 then some 63
  else none

/-- Modelled from the spec: `packBase64`, the external base64 decoder of
the shared secret's transport encoding; decodes four-byte groups with
standard `=` padding and reports malformed input as `none`. -/
def packBase64 : List Nat → Option (List Nat)
  | [] => some []
  | c1 :: c2 :: c3 :: c4 :: rest =>
    match b64val c1, b64val c2 with
    | some v1, some v2 =>
      if c3 = 61 ∧ c4 = 61 ∧ rest = [] then
        some [v1 * 4 + v2 / 16]
      else
        match b64val c3 with
        | some v3 =>
          if c4 = 61 ∧ rest = [] then
            some [v1 * 4 + v2 / 16, v2 % 16 * 16 + v3 / 4]
          else
            match b64val c4 with
            | some v4 =>
              match packBase64 rest with
              | some bs => some ([v1 * 4 + v2 / 16, v2 % 16 * 16 + v3 / 4,
                  v3 % 4 * 64 + v4] ++ bs)
              | none => none
            | none => none
        | none => none
    | _, _ => none
  | _ => none

/-- Modelled from the spec: `unpackBase64`, the base64 helper `Generate`
uses for the secret.  The spec says the secret is decoded from base64, but
the call site in `src/tsig.go` line 73 takes a single return value with no
error path, so malformed input cannot be reported there; it is modelled as
yielding the empty key. -/
def unpackBase64 (s : List Nat) : List Nat :=
  (packBase64 s).getD []

/-- Modelled from the spec: the Digest Engine — `crypto/hmac` HMAC with the
128-bit block hash (MD5) hard-coded by `hmac.NewMD5` in `src/tsig.go`
lines 78 and 116.  The external keyed hash is modelled as a concrete
deterministic 16-byte digest of the key and the buffer; its internal
structure is out of scope, only determinism and output length matter to
the claims. -/
def hmacMD5 (key buf : List Nat) : List Nat :=
  packUint 16 ((key ++ 92 :: buf).foldl
    (fun a c => (a * 16777619 + c + 1) % 2 ^ 128) 2166136261)

/-- Result of one `Generate` call: the returned boolean together with the
post-call states of the two objects the Go code reaches through pointers
(`rr` and `msg`). -/
structure GenOut where
  ok : Bool
  rr : RR_TSIG
  msg : Msg
  deriving DecidableEq, Repr

/-- `Generate` from `src/tsig.go` lines 72-84: decode the secret with
`unpackBase64`, build the signing buffer, HMAC-MD5 it, and store the MAC,
its length (narrowed to `uint16`) and the message id into the record.  The
message is only read, never written. -/
def generateFull (rr : RR_TSIG) (msg : Msg) (secret : List Nat) : GenOut :=
  let rawsecret := unpackBase64 secret
  match tsigToBuf rr msg with
  | none => ⟨false, rr, msg⟩
  | some buf =>
    let mac := hmacMD5 rawsecret buf
    ⟨true,
     { rr with MAC := mac, MACSize := mac.length % 2 ^ 16,
               OrigId := msg.MsgHdr.Id },
     msg⟩

/-- Result of one `Verify` call: the returned boolean, the post-call state
of the caller's message (in the Go code `msg2 := msg` copies the pointer,
so every write through `msg2` lands in the caller's `Msg`), and the number
of digest computations the call performed. -/
structure VerOut where
  accept : Bool
  msg : Msg
  digests : Nat
  deriving DecidableEq, Repr

/-- `Verify` from `src/tsig.go` lines 90-119: decode the secret with
`packBase64` (reject on error), reject when the additional section is
empty or its last record is not of TSIG type, then — through the alias
`msg2` — overwrite the message id with `rr.OrigId`, strip the last record,
rebuild the signing buffer and compare its HMAC-MD5 against `rr.MAC`. -/
def verifyFull (rr : RR_TSIG) (msg : Msg) (secret : List Nat) : VerOut :=
  match packBase64 secret with
  | none => ⟨false, msg, 0⟩
  | some rawsecret =>
    match msg.Extra.getLast? with
    | none => ⟨false, msg, 0⟩
    | some tsigrr =>
      if tsigrr.header.Rrtype ≠ TypeTSIG then ⟨false, msg, 0⟩
      else
        let msg2 : Msg := { msg with MsgHdr := ⟨rr.OrigId⟩,
                                     Extra := msg.Extra.dropLast }
        match tsigToBuf rr msg2 with
        | none => ⟨false, msg2, 0⟩
        | some buf =>
          ⟨decide (hmacMD5 rawsecret buf = rr.MAC), msg2, 1⟩

/-- `HmacMD5` from `src/tsig.go` line 16: bytes of
`"HMAC-MD5.SIG-ALG.REG.INT"`. -/
def HmacMD5 : List Nat :=
  [72, 77, 65, 67, 45, 77, 68, 53, 46, 83, 73, 71, 45, 65, 76, 71,
   46, 82, 69, 71, 46, 73, 78, 84]

/-- `HmacSHA1` from `src/tsig.go` line 17: bytes of `"hmac-sha1"`. -/
def HmacSHA1 : List Nat :=
  [104, 109, 97, 99, 45, 115, 104, 97, 49]

/-- `HmacSHA256` from `src/tsig.go` line 18: bytes of `"hmac-sha256"`. -/
def HmacSHA256 : List Nat :=
  [104, 109, 97, 99, 45, 115, 104, 97, 50, 53, 54]

/-- A concrete well-formed TSIG record (owner name `k.`, the MD5 algorithm
name, consistent fixed-size lengths) used to instantiate the theorems. -/
def rrT : RR_TSIG :=
  { Hdr := ⟨[107, 46], TypeTSIG, 255, 0⟩
    Algorithm := HmacMD5
    TimeSigned := 1234567
    Fudge := 300
    MACSize := 0
    MAC := []
    OrigId := 0
    Error := 0
    OtherLen := 0
    OtherData := [] }

/-- A concrete message with header id 1000, some body bytes and an empty
trailing-record list. -/
def msgT : Msg := ⟨⟨1000⟩, [1, 2, 3], []⟩

/-- A concrete valid base64 secret: the bytes of `ABCD`, which decode to
`[0, 16, 131]`. -/
def secT : List Nat := [65, 66, 67, 68]

/-- `msgT` carrying `rrT` as its last (and only) trailing record, as a
signed message reaching `Verify` would. -/
def msgS : Msg := { msgT with Extra := [RR.tsig rrT] }

/-- The fields `MAC`, `MACSize` and `OrigId` do not enter the signing
buffer: updating them leaves `tsigToBuf` unchanged. -/
theorem tsigToBuf_mac_irrel (rr : RR_TSIG) (msg : Msg) (m : List Nat)
    (n i : Nat) :
    tsigToBuf { rr with MAC := m, MACSize := n, OrigId := i } msg =
      tsigToBuf rr msg := rfl

/-- Success inversion for `Generate`: a `true` return means the signing
buffer was built, and the call's full result is the record updated with
the HMAC-MD5 of that buffer, its narrowed length, and the message id. -/
theorem generateFull_ok_elim (rr : RR_TSIG) (msg : Msg) (secret : List Nat)
    (h : (generateFull rr msg secret).ok = true) :
    ∃ buf, tsigToBuf rr msg = some buf ∧
      generateFull rr msg secret =
        ⟨true,
         { rr with MAC := hmacMD5 (unpackBase64 secret) buf,
                   MACSize := (hmacMD5 (unpackBase64 secret) buf).length % 2 ^ 16,
                   OrigId := msg.MsgHdr.Id },
         msg⟩ := by
  unfold generateFull at h ⊢
  cases htb : tsigToBuf rr msg with
  | none => rw [htb] at h; cases h
  | some buf => exact ⟨buf, rfl, rfl⟩

/-- `packUint` always yields exactly `w` bytes. -/
theorem packUint_length (w v : Nat) : (packUint w v).length = w := by
  simp [packUint]

/-- The modelled digest is always 16 bytes long. -/
theorem hmacMD5_length (key buf : List Nat) : (hmacMD5 key buf).length = 16 :=
  packUint_length 16 _

/-- Core acceptance lemma: whatever header id the transmitted message
carries, appending the record `Generate` completed and calling `Verify`
with that record and the same secret accepts — `Verify` restores the id
from `OrigId` and strips the appended record, so it digests exactly the
bytes `Generate` digested. -/
theorem verify_accepts_generated (msg : Msg) (hdr : MsgHdr) (rr : RR_TSIG)
    (secret raw : List Nat)
    (hsec : packBase64 secret = some raw)
    (htype : rr.Hdr.Rrtype = TypeTSIG)
    (hok : (generateFull rr msg secret).ok = true) :
    (verifyFull (generateFull rr msg secret).rr
      { MsgHdr := hdr, body := msg.body,
        Extra := msg.Extra ++ [RR.tsig (generateFull rr msg secret).rr] }
      secret).accept = true := by
  obtain ⟨buf, htb, hg⟩ := generateFull_ok_elim rr msg secret hok
  rw [hg]
  unfold verifyFull
  rw [hsec]
  simp only [List.getLast?_concat, RR.header, List.dropLast_concat]
  rw [if_neg (by simp [htype])]
  rw [tsigToBuf_mac_irrel]
  have h2 : tsigToBuf rr
      { MsgHdr := ⟨msg.MsgHdr.Id⟩, body := msg.body, Extra := msg.Extra } =
      some buf := htb
  rw [h2]
  have hun : unpackBase64 secret = raw := by
    unfold unpackBase64; rw [hsec]; rfl
  simp [hun]

/-- C1 — Round trip: for every well-formed message and record (one whose
header carries the TSIG record type) and valid base64 secret, a successful
`Generate(message, record, secret)` followed by appending the completed
record as the last trailing record and calling `Verify` on that message
with the same record and secret accepts. -/
theorem claim_C1_round_trip (msg : Msg) (rr : RR_TSIG) (secret raw : List Nat)
    (hsec : packBase64 secret = some raw)
    (htype : rr.Hdr.Rrtype = TypeTSIG)
    (hok : (generateFull rr msg secret).ok = true) :
    (verifyFull (generateFull rr msg secret).rr
      { msg with Extra := msg.Extra ++ [RR.tsig (generateFull rr msg secret).rr] }
      secret).accept = true :=
  verify_accepts_generated msg msg.MsgHdr rr secret raw hsec htype hok

/-- C1 witness: the hypotheses hold and the round trip accepts at the
concrete record `rrT`, message `msgT` and secret `secT`. -/
theorem claim_C1_round_trip_witness :
    packBase64 secT = some [0, 16, 131] ∧
    rrT.Hdr.Rrtype = TypeTSIG ∧
    (generateFull rrT msgT secT).ok = true ∧
    (verifyFull (generateFull rrT msgT secT).rr
      { msgT with Extra := msgT.Extra ++ [RR.tsig (generateFull rrT msgT secT).rr] }
      secT).accept = true :=
  ⟨by decide, by decide, by decide,
   claim_C1_round_trip msgT rrT secT [0, 16, 131] (by decide) (by decide)
     (by decide)⟩

/-- C5 — Original-id restoration: a message signed under some header id
still verifies after a forwarder rewrites the header id to any `newid`,
as long as the record (with its `OrigId`) is preserved: `Verify` sets the
working message's header id to `rr.OrigId` and removes the last trailing
record before recomputing the digest. -/
theorem claim_C5_origid_restore (msg : Msg) (rr : RR_TSIG)
    (secret raw : List Nat) (newid : Nat)
    (hsec : packBase64 secret = some raw)
    (htype : rr.Hdr.Rrtype = TypeTSIG)
    (hok : (generateFull rr msg secret).ok = true) :
    (verifyFull (generateFull rr msg secret).rr
      { MsgHdr := ⟨newid⟩, body := msg.body,
        Extra := msg.Extra ++ [RR.tsig (generateFull rr msg secret).rr] }
      secret).accept = true :=
  verify_accepts_generated msg ⟨newid⟩ rr secret raw hsec htype hok

/-- C5 witness: sign `msgT` (header id 1000), rewrite the transmitted
header id to 2000, verify — accepted. -/
theorem claim_C5_origid_restore_witness :
    packBase64 secT = some [0, 16, 131] ∧
    rrT.Hdr.Rrtype = TypeTSIG ∧
    (generateFull rrT msgT secT).ok = true ∧
    msgT.MsgHdr.Id = 1000 ∧
    (verifyFull (generateFull rrT msgT secT).rr
      { MsgHdr := ⟨2000⟩, body := msgT.body,
        Extra := msgT.Extra ++ [RR.tsig (generateFull rrT msgT secT).rr] }
      secT).accept = true :=
  ⟨by decide, by decide, by decide, by decide,
   claim_C5_origid_restore msgT rrT secT [0, 16, 131] 2000 (by decide)
     (by decide) (by decide)⟩

/-- C3 — Canonical signing buffer: whenever `tsigToBuf` succeeds, the
produced buffer is the packed message followed (strictly after, never
interleaved) by the packed projection of exactly the record's owner name,
class, ttl, algorithm name, time signed, fudge, error, other-length and
other-data; and the excluded fields `MAC`, `MACSize`, `OrigId` do not
influence the buffer. -/
theorem claim_C3_canonical_buffer (rr : RR_TSIG) (msg : Msg) (buf : List Nat)
    (h : tsigToBuf rr msg = some buf) :
    (∃ mb tb, Msg.Pack msg = some mb ∧ packStructTsig (tsigProj rr) = some tb ∧
      buf = mb ++ tb) ∧
    ∀ m n i, tsigToBuf { rr with MAC := m, MACSize := n, OrigId := i } msg =
      some buf := by
  refine ⟨?_, fun m n i => (tsigToBuf_mac_irrel rr msg m n i).trans h⟩
  unfold tsigToBuf at h
  cases hp : packStructTsig (tsigProj rr) with
  | none => rw [hp] at h; cases h
  | some tbuf =>
    rw [hp] at h
    dsimp only at h
    by_cases hlen : tbuf.length ≤ 4096
    · rw [if_pos hlen] at h
      cases hm : msg.Pack with
      | none => rw [hm] at h; cases h
      | some mb => rw [hm] at h; cases h; exact ⟨mb, tbuf, rfl, rfl, rfl⟩
    · rw [if_neg hlen] at h; cases h

/-- C3 witness: at `rrT` and `msgT` the buffer construction succeeds, the
buffer splits as message bytes followed by projection bytes, and updating
`MAC`, `MACSize`, `OrigId` leaves it unchanged. -/
theorem claim_C3_canonical_buffer_witness :
    tsigToBuf rrT msgT = some ((tsigToBuf rrT msgT).getD []) ∧
    (∃ mb tb, Msg.Pack msgT = some mb ∧
      packStructTsig (tsigProj rrT) = some tb ∧
      (tsigToBuf rrT msgT).getD [] = mb ++ tb) ∧
    tsigToBuf { rrT with MAC := [7], MACSize := 1, OrigId := 9 } msgT =
      some ((tsigToBuf rrT msgT).getD []) :=
  ⟨by rfl,
   (claim_C3_canonical_buffer rrT msgT ((tsigToBuf rrT msgT).getD [])
     (by rfl)).1,
   (claim_C3_canonical_buffer rrT msgT ((tsigToBuf rrT msgT).getD [])
     (by rfl)).2 [7] 1 9⟩

/-- C4 — Generate postconditions: on success, `record.MAC` holds the
digest of the signing buffer, `record.MACSize` equals the byte length of
`record.MAC`, `record.OrigId` equals the message's header id, and the
message is unchanged (only the record is mutated). -/
theorem claim_C4_generate_post (rr : RR_TSIG) (msg : Msg) (secret : List Nat)
    (h : (generateFull rr msg secret).ok = true) :
    ∃ buf, tsigToBuf rr msg = some buf ∧
      (generateFull rr msg secret).rr.MAC = hmacMD5 (unpackBase64 secret) buf ∧
      (generateFull rr msg secret).rr.MACSize =
        (generateFull rr msg secret).rr.MAC.length ∧
      (generateFull rr msg secret).rr.OrigId = msg.MsgHdr.Id ∧
      (generateFull rr msg secret).msg = msg := by
  obtain ⟨buf, htb, hg⟩ := generateFull_ok_elim rr msg secret h
  exact ⟨buf, htb, by rw [hg], by rw [hg]; simp [hmacMD5_length],
    by rw [hg], by rw [hg]⟩

/-- C4 witness: `Generate` succeeds at `rrT`, `msgT`, `secT` and the
postconditions hold there. -/
theorem claim_C4_generate_post_witness :
    (generateFull rrT msgT secT).ok = true ∧
    (∃ buf, tsigToBuf rrT msgT = some buf ∧
      (generateFull rrT msgT secT).rr.MAC =
        hmacMD5 (unpackBase64 secT) buf ∧
      (generateFull rrT msgT secT).rr.MACSize =
        (generateFull rrT msgT secT).rr.MAC.length ∧
      (generateFull rrT msgT secT).rr.OrigId = msgT.MsgHdr.Id ∧
      (generateFull rrT msgT secT).msg = msgT) :=
  ⟨by decide, claim_C4_generate_post rrT msgT secT (by decide)⟩

/-- C6 — Missing/misplaced signature: when the trailing-record list is
empty, or its last record is not of TSIG type, `Verify` rejects and
performs no digest computation at all. -/
theorem claim_C6_missing_signature (rr : RR_TSIG) (msg : Msg)
    (secret : List Nat)
    (h : msg.Extra = [] ∨
      ∃ r, msg.Extra.getLast? = some r ∧ r.header.Rrtype ≠ TypeTSIG) :
    (verifyFull rr msg secret).accept = false ∧
    (verifyFull rr msg secret).digests = 0 := by
  unfold verifyFull
  cases hs : packBase64 secret with
  | none => exact ⟨rfl, rfl⟩
  | some raw =>
    rcases h with h | ⟨r, hr, hrt⟩
    · rw [show msg.Extra.getLast? = none from by rw [h]; rfl]
      exact ⟨rfl, rfl⟩
    · rw [hr]
      dsimp only
      rw [if_pos hrt]
      exact ⟨rfl, rfl⟩

/-- C6 witness: `msgT` has no trailing records; `Verify` rejects it with
zero digest computations. -/
theorem claim_C6_missing_signature_witness :
    msgT.Extra = [] ∧
    (verifyFull rrT msgT secT).accept = false ∧
    (verifyFull rrT msgT secT).digests = 0 :=
  ⟨rfl, (claim_C6_missing_signature rrT msgT secT (Or.inl rfl)).1,
   (claim_C6_missing_signature rrT msgT secT (Or.inl rfl)).2⟩

/-- C9 — The trailing TSIG record is inspected only for its record type:
two messages that differ solely in the field contents of their trailing
TSIG record (both carrying the TSIG record type) yield the same `Verify`
decision, which is based on the argument record and the rest of the
message. -/
theorem claim_C9_trailing_contents_irrelevant (rr : RR_TSIG) (msg : Msg)
    (secret : List Nat) (t1 t2 : RR_TSIG)
    (h1 : t1.Hdr.Rrtype = TypeTSIG) (h2 : t2.Hdr.Rrtype = TypeTSIG) :
    (verifyFull rr { msg with Extra := msg.Extra ++ [RR.tsig t1] }
      secret).accept =
    (verifyFull rr { msg with Extra := msg.Extra ++ [RR.tsig t2] }
      secret).accept := by
  unfold verifyFull
  cases hs : packBase64 secret with
  | none => rfl
  | some raw =>
    simp only [List.getLast?_concat, RR.header, List.dropLast_concat]
    rw [if_neg (by simp [h1]), if_neg (by simp [h2])]

/-- C9 witness: two trailing TSIG records differing in `MAC` and
`TimeSigned` give the same decision at concrete inputs. -/
theorem claim_C9_trailing_contents_irrelevant_witness :
    rrT.Hdr.Rrtype = TypeTSIG ∧
    ({ rrT with MAC := [1, 2, 3], MACSize := 3, TimeSigned := 99
       } : RR_TSIG).Hdr.Rrtype = TypeTSIG ∧
    (verifyFull rrT { msgT with Extra := msgT.Extra ++ [RR.tsig rrT] }
      secT).accept =
    (verifyFull rrT { msgT with Extra := msgT.Extra ++
        [RR.tsig { rrT with MAC := [1, 2, 3], MACSize := 3, TimeSigned := 99 }]
      } secT).accept :=
  ⟨by decide, by decide,
   claim_C9_trailing_contents_irrelevant rrT msgT secT rrT
     { rrT with MAC := [1, 2, 3], MACSize := 3, TimeSigned := 99 }
     (by decide) (by decide)⟩

/-- C10 — Partial atomicity of the reject paths: when `Verify` rejects
because the secret fails to decode, the trailing-record list is empty, or
the last trailing record is not of TSIG type, the caller's message is left
completely unmodified (the id overwrite and the record removal come only
after those three checks). -/
theorem claim_C10_early_reject_no_mutation (rr : RR_TSIG) (msg : Msg)
    (secret : List Nat)
    (h : packBase64 secret = none ∨ msg.Extra = [] ∨
      ∃ r, msg.Extra.getLast? = some r ∧ r.header.Rrtype ≠ TypeTSIG) :
    (verifyFull rr msg secret).accept = false ∧
    (verifyFull rr msg secret).msg = msg := by
  unfold verifyFull
  rcases h with h | h | ⟨r, hr, hrt⟩
  · rw [h]; exact ⟨rfl, rfl⟩
  · cases hs : packBase64 secret with
    | none => exact ⟨rfl, rfl⟩
    | some raw =>
      rw [show msg.Extra.getLast? = none from by rw [h]; rfl]
      exact ⟨rfl, rfl⟩
  · cases hs : packBase64 secret with
    | none => exact ⟨rfl, rfl⟩
    | some raw =>
      rw [hr]
      dsimp only
      rw [if_pos hrt]
      exact ⟨rfl, rfl⟩

/-- C10 witness: with an invalid base64 secret (`!`) and a message whose
last trailing record is a TSIG, `Verify` rejects and the message is
exactly the one passed in. -/
theorem claim_C10_early_reject_no_mutation_witness :
    packBase64 [33] = none ∧
    (verifyFull rrT msgS [33]).accept = false ∧
    (verifyFull rrT msgS [33]).msg = msgS :=
  ⟨by decide,
   (claim_C10_early_reject_no_mutation rrT msgS [33] (Or.inl (by decide))).1,
   (claim_C10_early_reject_no_mutation rrT msgS [33] (Or.inl (by decide))).2⟩

/-- C2 is violated by the code: `msg2 := msg` in `src/tsig.go` line 99
copies a pointer (the deep copy is a `TODO` in the code's own comment), so
on the digest path `Verify` overwrites the caller's header id with
`rr.OrigId` and strips the last trailing record from the caller's message.
At the concrete signed message `msgS` (id 1000, one trailing TSIG) and
record `rrT` (`OrigId` 0), after the call the message differs from the
pristine one: its trailing list is empty, its id is 0, and its
serialization is no longer byte-identical. -/
theorem claim_C2_verify_mutates_message :
    (verifyFull rrT msgS secT).msg ≠ msgS ∧
    (verifyFull rrT msgS secT).msg.Extra = [] ∧ msgS.Extra ≠ [] ∧
    (verifyFull rrT msgS secT).msg.MsgHdr.Id = rrT.OrigId ∧
    msgS.MsgHdr.Id = 1000 ∧ rrT.OrigId = 0 ∧
    Msg.Pack ((verifyFull rrT msgS secT).msg) ≠ Msg.Pack msgS := by
  decide

/-- C7 is half violated by the code: `Verify` does reject a secret that is
not valid base64 (`packBase64` error, `src/tsig.go` lines 94-97), but
`Generate` takes the single return value of `unpackBase64` on line 73 with
no error path, so on the same malformed secret (the byte of `!`) it
returns success and produces a digest instead of failing. -/
theorem claim_C7_generate_ignores_bad_secret :
    packBase64 [33] = none ∧
    (verifyFull rrT msgS [33]).accept = false ∧
    (generateFull rrT msgT [33]).ok = true ∧
    (generateFull rrT msgT [33]).rr.MAC.length = 16 := by
  decide

/-- C8 as stated is false on the code: with an algorithm name (`xyz`) that
is none of the three recognized constants, `Generate` does not fail with
an unsupported-algorithm condition — it succeeds and computes the MD5
digest. -/
theorem claim_C8_counterexample :
    ({ rrT with Algorithm := [120, 121, 122] } : RR_TSIG).Algorithm ≠ HmacMD5 ∧
    ({ rrT with Algorithm := [120, 121, 122] } : RR_TSIG).Algorithm ≠ HmacSHA1 ∧
    ({ rrT with Algorithm := [120, 121, 122] } : RR_TSIG).Algorithm ≠ HmacSHA256 ∧
    (generateFull { rrT with Algorithm := [120, 121, 122] } msgT secT).ok =
      true ∧
    (generateFull { rrT with Algorithm := [120, 121, 122] } msgT secT).rr.MAC =
      hmacMD5 (unpackBase64 secT)
        ((tsigToBuf { rrT with Algorithm := [120, 121, 122] } msgT).getD []) := by
  decide

/-- C8 amended: the digest engine never dispatches on `AlgorithmName` —
for every record, message and secret, whenever the signing buffer can be
built, `Generate` succeeds and its digest is the hard-coded HMAC-MD5 of
the buffer, whatever the algorithm name (it enters the computation only as
data inside the buffer), and no unsupported-algorithm failure exists. -/
theorem claim_C8_amended_no_dispatch (rr : RR_TSIG) (msg : Msg)
    (secret buf : List Nat) (h : tsigToBuf rr msg = some buf) :
    (generateFull rr msg secret).ok = true ∧
    (generateFull rr msg secret).rr.MAC =
      hmacMD5 (unpackBase64 secret) buf := by
  unfold generateFull
  rw [h]
  exact ⟨rfl, rfl⟩

/-- C8 amended witness: at the unrecognized algorithm name `xyz` the
buffer builds, `Generate` succeeds, and the digest is the HMAC-MD5 one. -/
theorem claim_C8_amended_no_dispatch_witness :
    tsigToBuf { rrT with Algorithm := [120, 121, 122] } msgT =
      some ((tsigToBuf { rrT with Algorithm := [120, 121, 122] } msgT).getD []) ∧
    (generateFull { rrT with Algorithm := [120, 121, 122] } msgT secT).ok =
      true ∧
    (generateFull { rrT with Algorithm := [120, 121, 122] } msgT secT).rr.MAC =
      hmacMD5 (unpackBase64 secT)
        ((tsigToBuf { rrT with Algorithm := [120, 121, 122] } msgT).getD []) :=
  ⟨by rfl,
   (claim_C8_amended_no_dispatch { rrT with Algorithm := [120, 121, 122] }
     msgT secT _ (by rfl)).1,
   (claim_C8_amended_no_dispatch { rrT with Algorithm := [120, 121, 122] }
     msgT secT _ (by rfl)).2⟩

end TSIG
